import Mathlib

/-!
Verification of the wordBashCdk infrastructure declarations.

The repository is an AWS CDK application (four Python files: app.py,
network_stack.py, data_stack.py, compute_stack.py) that synthesises a
static description of cloud resources from a context environment.  We
embed the synthesis shallowly: each stack constructor becomes a Lean
function from the context to a record of declared resources, translated
directly from the Python source.
-/

/-- A context value as returned by `node.try_get_context`: an arbitrary
JSON-ish value whose Python truthiness matters to the code. -/
inductive CtxValue where
  | vNull
  | vBool (b : Bool)
  | vNum (n : Int)
  | vStr (s : String)
deriving DecidableEq, Repr

/-- Python truthiness of a context value (None, False, 0 and "" are falsy). -/
def CtxValue.truthy : CtxValue → Bool
  | .vNull => false
  | .vBool b => b
  | .vNum n => n != 0
  | .vStr s => s != ""

/-- The context environment read through `try_get_context`: the keys the
four source files consult.  `none` models an absent key. -/
structure Context where
  account : Option CtxValue
  region : Option CtxValue
  keep_data : Option CtxValue
  web_image_path : Option CtxValue
  game_image_path : Option CtxValue
  api_base_url : Option CtxValue
deriving DecidableEq, Repr

/-- Python truthiness of an optional context lookup: an absent key
(`try_get_context` returning None) is falsy. -/
def ctxTruthy : Option CtxValue → Bool
  | some v => v.truthy
  | none => false

/-- Python `x or d` on a context lookup: the looked-up value when it is
present and truthy, the default otherwise. -/
def pyOr (x : Option CtxValue) (d : CtxValue) : CtxValue :=
  match x with
  | some v => if v.truthy then v else d
  | none => d

/-- RemovalPolicy values used by data_stack.py. -/
inductive RemovalPolicy where
  | retain
  | destroy
deriving DecidableEq, Repr

/-- DynamoDB attribute types (only STRING is used). -/
inductive AttributeType where
  | string
  | number
  | binary
deriving DecidableEq, Repr

/-- DynamoDB billing modes. -/
inductive BillingMode where
  | payPerRequest
  | provisioned
deriving DecidableEq, Repr

/-- A DynamoDB key attribute declaration. -/
structure TableAttribute where
  name : String
  attrType : AttributeType
deriving DecidableEq, Repr

/-- The DynamoDB table declaration produced by data_stack.py. -/
structure TableDecl where
  tableName : String
  partitionKey : TableAttribute
  billingMode : BillingMode
  removalPolicy : RemovalPolicy
deriving DecidableEq, Repr

/-- A CloudFormation export declared through CfnOutput with an export name. -/
structure ExportDecl where
  id : String
  exportNameSuffix : String
deriving DecidableEq, Repr

/-- The data stack (data_stack.py): one table plus two exports. -/
structure DataStack where
  table : TableDecl
  exports : List ExportDecl
deriving DecidableEq, Repr

/-- DataStack.__init__ from data_stack.py: the table named wordbash_games
with string partition key game_id, on-demand billing, and a removal policy
chosen by the Python conditional on `try_get_context("keep_data")`. -/
def dataStack (ctx : Context) : DataStack :=
  { table :=
      { tableName := "wordbash_games"
        partitionKey := { name := "game_id", attrType := .string }
        billingMode := .payPerRequest
        removalPolicy := if ctxTruthy ctx.keep_data then .retain else .destroy }
    exports := [ { id := "TableArn", exportNameSuffix := "-TableArn" },
                 { id := "TableName", exportNameSuffix := "-TableName" } ] }

/-- Subnet types used by network_stack.py. -/
inductive SubnetType where
  | publicSubnet
  | privateWithEgress
deriving DecidableEq, Repr

/-- One ec2.SubnetConfiguration entry. -/
structure SubnetConfiguration where
  name : String
  subnetType : SubnetType
  cidrMask : Nat
deriving DecidableEq, Repr

/-- The Vpc construct properties as declared in network_stack.py. -/
structure VpcProps where
  maxAzs : Nat
  natGateways : Nat
  subnetConfiguration : List SubnetConfiguration
deriving DecidableEq, Repr

/-- A concrete subnet produced by the Vpc construct: one per
(availability zone, subnet configuration) pair. -/
structure Subnet where
  az : Nat
  name : String
  subnetType : SubnetType
  cidrMask : Nat
deriving DecidableEq, Repr

/-- The Vpc construct instantiates each subnet configuration once per
availability zone (documented behaviour of aws_ec2.Vpc). -/
def VpcProps.subnets (p : VpcProps) : List Subnet :=
  (List.range p.maxAzs).flatMap fun az =>
    p.subnetConfiguration.map fun c =>
      { az := az, name := c.name, subnetType := c.subnetType, cidrMask := c.cidrMask }

/-- NAT gateways created by the Vpc construct, identified by the index of
the availability zone hosting them: the construct places one gateway per
zone up to the `natGateways` count. -/
def VpcProps.natGatewayIds (p : VpcProps) : List Nat :=
  List.range p.natGateways

/-- The NAT gateway through which a PRIVATE_WITH_EGRESS subnet routes its
default route (documented behaviour of aws_ec2.Vpc: the private subnet of
zone i uses the gateway of zone min(i, natGateways - 1)). -/
def Subnet.egressGateway (p : VpcProps) (s : Subnet) : Option Nat :=
  if s.subnetType = .privateWithEgress ∧ 0 < p.natGateways then
    some (min s.az (p.natGateways - 1))
  else
    none

/-- The network stack (network_stack.py): a single Vpc. -/
structure NetworkStack where
  vpc : VpcProps
deriving DecidableEq, Repr

/-- NetworkStack.__init__ from network_stack.py: a VPC over 2 availability
zones, one NAT gateway, one public and one private /24 subnet
configuration. -/
def networkStack : NetworkStack :=
  { vpc :=
      { maxAzs := 2
        natGateways := 1
        subnetConfiguration :=
          [ { name := "Public", subnetType := .publicSubnet, cidrMask := 24 },
            { name := "Private", subnetType := .privateWithEgress, cidrMask := 24 } ] } }

/-- A string value occurring in the synthesised template: either a literal
or a deploy-time token (region, account, table name or ARN, load-balancer
DNS name), possibly concatenated, or a raw context value. -/
inductive StrVal where
  | lit (s : String)
  | regionTok
  | accountTok
  | tableNameTok
  | tableArnTok
  | albDnsTok
  | ofCtx (v : CtxValue)
  | cat (a b : StrVal)
deriving DecidableEq, Repr

/-- A security-group peer: the open internet or another security group
(referenced by construct id). -/
inductive Peer where
  | anyIpv4
  | sgRef (id : String)
deriving DecidableEq, Repr

/-- An ingress rule of a security group (all rules in the source are TCP). -/
structure IngressRule where
  peer : Peer
  tcpPort : Nat
deriving DecidableEq, Repr

/-- A security group declaration. -/
structure SecurityGroup where
  id : String
  ingress : List IngressRule
deriving DecidableEq, Repr

/-- ComputeStack._create_alb_security_group: ingress from anywhere on 80. -/
def albSecurityGroup : SecurityGroup :=
  { id := "AlbSecurityGroup"
    ingress := [ { peer := .anyIpv4, tcpPort := 80 } ] }

/-- ComputeStack._create_service_security_group: ingress on the container
port 8080 from the ALB security group only. -/
def serviceSecurityGroup (albSg : SecurityGroup) : SecurityGroup :=
  { id := "ServiceSecurityGroup"
    ingress := [ { peer := .sgRef albSg.id, tcpPort := 8080 } ] }

/-- An IAM policy statement added through add_to_policy. -/
structure PolicyStatement where
  actions : List String
  resources : List StrVal
deriving DecidableEq, Repr

/-- High-level grants applied to a role (table.grant_read_write_data). -/
inductive Grant where
  | tableReadWriteData
deriving DecidableEq, Repr

/-- An IAM role declaration. -/
structure Role where
  id : String
  assumedBy : String
  grants : List Grant
  statements : List PolicyStatement
deriving DecidableEq, Repr

/-- Docker image platforms (only LINUX_AMD64 is used). -/
inductive Platform where
  | linuxAmd64
deriving DecidableEq, Repr

/-- A DockerImageAsset declaration: build directory and platform. -/
structure DockerImageAsset where
  directory : CtxValue
  platform : Platform
deriving DecidableEq, Repr

/-- A container port mapping. -/
structure PortMapping where
  containerPort : Nat
deriving DecidableEq, Repr

/-- A CloudWatch log group declaration (retention in days). -/
structure LogGroupDecl where
  logGroupName : String
  retentionDays : Nat
deriving DecidableEq, Repr

/-- The awslogs log driver configuration. -/
structure LogDriver where
  streamPfx : String
  logGroup : LogGroupDecl
deriving DecidableEq, Repr

/-- A container added to a task definition. -/
structure ContainerDecl where
  name : String
  image : DockerImageAsset
  portMappings : List PortMapping
  environment : List (String × StrVal)
  logging : LogDriver
deriving DecidableEq, Repr

/-- A Fargate task definition. -/
structure FargateTaskDefinition where
  id : String
  memoryLimitMiB : Nat
  cpu : Nat
  taskRole : Role
  containers : List ContainerDecl
deriving DecidableEq, Repr

/-- The auto-scaling declaration attached to a service
(auto_scale_task_count plus scale_on_cpu_utilization). -/
structure ScalingConfig where
  policyId : String
  minCapacity : Nat
  maxCapacity : Nat
  targetUtilizationPercent : Nat
deriving DecidableEq, Repr

/-- A Fargate service declaration. -/
structure FargateService where
  id : String
  taskDefinition : FargateTaskDefinition
  desiredCount : Nat
  securityGroups : List SecurityGroup
  scaling : ScalingConfig
deriving DecidableEq, Repr

/-- Appending a policy statement to a service's task role, as done by
`service.task_definition.task_role.add_to_policy(...)`. -/
def FargateService.addToTaskRolePolicy (s : FargateService) (p : PolicyStatement) :
    FargateService :=
  { s with taskDefinition :=
      { s.taskDefinition with taskRole :=
          { s.taskDefinition.taskRole with
              statements := s.taskDefinition.taskRole.statements ++ [p] } } }

/-- Application-layer protocols used by the listener and target groups. -/
inductive AppProtocol where
  | http
deriving DecidableEq, Repr

/-- Target types for target groups (only IP is used). -/
inductive TargetType where
  | ip
deriving DecidableEq, Repr

/-- A target-group health check declaration (durations in seconds). -/
structure HealthCheck where
  path : String
  healthyThresholdCount : Nat
  unhealthyThresholdCount : Nat
  timeoutSeconds : Nat
  intervalSeconds : Nat
deriving DecidableEq, Repr

/-- An application target group, including any raw TargetGroupAttributes
property overrides applied through add_property_override and the id of
the attached service. -/
structure TargetGroup where
  id : String
  port : Nat
  protocol : AppProtocol
  targetType : TargetType
  healthCheck : HealthCheck
  attributeOverrides : List (String × String)
  attachedService : String
deriving DecidableEq, Repr

/-- A listener action (only forward is used). -/
inductive ListenerActionT where
  | forward (targets : List TargetGroup)
deriving DecidableEq, Repr

/-- A listener rule added through add_action with an explicit priority and
path-pattern conditions. -/
structure ListenerRule where
  id : String
  priority : Nat
  pathPatterns : List String
  action : ListenerActionT
deriving DecidableEq, Repr

/-- An application listener: port, protocol, default action, rules. -/
structure Listener where
  id : String
  port : Nat
  protocol : AppProtocol
  defaultAction : ListenerActionT
  rules : List ListenerRule
deriving DecidableEq, Repr

/-- ALB listener rules carry explicit priorities 1 to 50000; the default
action is evaluated only after every rule, so its implicit priority is
numerically above them all.  We model that implicit lowest priority as
50001 (documented behaviour of application load balancers). -/
def defaultActionImplicitPriority : Nat := 50001

/-- The application load balancer declaration. -/
structure ALB where
  id : String
  internetFacing : Bool
  securityGroup : SecurityGroup
deriving DecidableEq, Repr

/-- An SSM string parameter declaration. -/
structure SsmParameter where
  id : String
  parameterName : String
  stringValue : StrVal
  description : String
deriving DecidableEq, Repr

/-- A plain CfnOutput of the compute stack. -/
structure OutputDecl where
  id : String
  value : StrVal
deriving DecidableEq, Repr

/-- ComputeStack._create_web_service from compute_stack.py. -/
def createWebService (image : DockerImageAsset) (sg : SecurityGroup)
    (apiBaseUrl : Option CtxValue) : FargateService :=
  { id := "WebService"
    taskDefinition :=
      { id := "WebTaskDef"
        memoryLimitMiB := 1024
        cpu := 512
        taskRole :=
          { id := "WebTaskRole"
            assumedBy := "ecs-tasks.amazonaws.com"
            grants := [.tableReadWriteData]
            statements := [] }
        containers :=
          [ { name := "WebContainer"
              image := image
              portMappings := [ { containerPort := 8080 } ]
              environment :=
                [ ("AWS_REGION", .regionTok),
                  ("LOG_LEVEL", .lit "INFO"),
                  ("DDB_TABLE_NAME", .tableNameTok),
                  ("WS_ENDPOINT_PARAM", .lit "/wordbash/ws_endpoint"),
                  ("API_BASE_URL", .ofCtx (pyOr apiBaseUrl (.vStr ""))) ]
              logging :=
                { streamPfx := "web"
                  logGroup :=
                    { logGroupName := "/aws/ecs/wordbash-web"
                      retentionDays := 14 } } } ] }
    desiredCount := 1
    securityGroups := [sg]
    scaling :=
      { policyId := "WebCpuScaling"
        minCapacity := 1
        maxCapacity := 4
        targetUtilizationPercent := 50 } }

/-- ComputeStack._create_game_service from compute_stack.py. -/
def createGameService (image : DockerImageAsset) (sg : SecurityGroup) :
    FargateService :=
  { id := "GameService"
    taskDefinition :=
      { id := "GameTaskDef"
        memoryLimitMiB := 1024
        cpu := 512
        taskRole :=
          { id := "GameTaskRole"
            assumedBy := "ecs-tasks.amazonaws.com"
            grants := [.tableReadWriteData]
            statements := [] }
        containers :=
          [ { name := "GameContainer"
              image := image
              portMappings := [ { containerPort := 8080 } ]
              environment :=
                [ ("AWS_REGION", .regionTok),
                  ("LOG_LEVEL", .lit "INFO"),
                  ("DDB_TABLE_NAME", .tableNameTok) ]
              logging :=
                { streamPfx := "game"
                  logGroup :=
                    { logGroupName := "/aws/ecs/wordbash-game"
                      retentionDays := 14 } } } ] }
    desiredCount := 1
    securityGroups := [sg]
    scaling :=
      { policyId := "GameCpuScaling"
        minCapacity := 1
        maxCapacity := 4
        targetUtilizationPercent := 50 } }

/-- ComputeStack._create_web_target_group from compute_stack.py. -/
def createWebTargetGroup (service : FargateService) : TargetGroup :=
  { id := "WebTargetGroup"
    port := 8080
    protocol := .http
    targetType := .ip
    healthCheck :=
      { path := "/healthz"
        healthyThresholdCount := 2
        unhealthyThresholdCount := 3
        timeoutSeconds := 10
        intervalSeconds := 30 }
    attributeOverrides := []
    attachedService := service.id }

/-- ComputeStack._create_game_target_group from compute_stack.py,
including the raw TargetGroupAttributes property override. -/
def createGameTargetGroup (service : FargateService) : TargetGroup :=
  { id := "GameTargetGroup"
    port := 8080
    protocol := .http
    targetType := .ip
    healthCheck :=
      { path := "/healthz"
        healthyThresholdCount := 2
        unhealthyThresholdCount := 3
        timeoutSeconds := 10
        intervalSeconds := 30 }
    attributeOverrides :=
      [ ("deregistration_delay.timeout_seconds", "30"),
        ("stickiness.enabled", "true"),
        ("stickiness.type", "lb_cookie") ]
    attachedService := service.id }

/-- The compute stack (compute_stack.py): all resources declared by
ComputeStack.__init__. -/
structure ComputeStack where
  webPath : CtxValue
  gamePath : CtxValue
  albSg : SecurityGroup
  alb : ALB
  webImage : DockerImageAsset
  gameImage : DockerImageAsset
  serviceSg : SecurityGroup
  webService : FargateService
  gameService : FargateService
  webTg : TargetGroup
  gameTg : TargetGroup
  httpListener : Listener
  wsParam : SsmParameter
  outputs : List OutputDecl
deriving DecidableEq, Repr

/-- The WebSocket endpoint string built in ComputeStack.__init__:
"ws://" + alb.load_balancer_dns_name + "/ws". -/
def wsEndpoint : StrVal :=
  .cat (.lit "ws://") (.cat .albDnsTok (.lit "/ws"))

/-- The SSM GetParameter policy statement added to the web task role:
action ssm:GetParameter on
arn:aws:ssm:region:account:parameter/wordbash/ws_endpoint. -/
def ssmGetParameterStatement : PolicyStatement :=
  { actions := ["ssm:GetParameter"]
    resources :=
      [ .cat (.lit "arn:aws:ssm:")
          (.cat .regionTok
            (.cat (.lit ":")
              (.cat .accountTok (.lit ":parameter/wordbash/ws_endpoint")))) ] }

/-- ComputeStack.__init__ from compute_stack.py, translated statement by
statement: context-path defaults, security groups, ALB, image assets,
services, target groups, listener with default action and WebSocket rule,
SSM parameter, policy grant to the web task role, and outputs. -/
def computeStack (ctx : Context) : ComputeStack :=
  let web_path := pyOr ctx.web_image_path (.vStr "../web")
  let game_path := pyOr ctx.game_image_path (.vStr "../game")
  let alb_sg := albSecurityGroup
  let alb : ALB := { id := "WordBashALB", internetFacing := true, securityGroup := alb_sg }
  let web_image : DockerImageAsset := { directory := web_path, platform := .linuxAmd64 }
  let game_image : DockerImageAsset := { directory := game_path, platform := .linuxAmd64 }
  let service_sg := serviceSecurityGroup alb_sg
  let web_service0 := createWebService web_image service_sg ctx.api_base_url
  let game_service := createGameService game_image service_sg
  let web_tg := createWebTargetGroup web_service0
  let game_tg := createGameTargetGroup game_service
  let http_listener : Listener :=
    { id := "HttpListener"
      port := 80
      protocol := .http
      defaultAction := .forward [web_tg]
      rules :=
        [ { id := "WebSocketRule"
            priority := 100
            pathPatterns := ["/ws/*"]
            action := .forward [game_tg] } ] }
  let ws_param : SsmParameter :=
    { id := "WsEndpointParam"
      parameterName := "/wordbash/ws_endpoint"
      stringValue := wsEndpoint
      description := "WebSocket endpoint URL for WordBash game connections" }
  let web_service := web_service0.addToTaskRolePolicy ssmGetParameterStatement
  { webPath := web_path
    gamePath := game_path
    albSg := alb_sg
    alb := alb
    webImage := web_image
    gameImage := game_image
    serviceSg := service_sg
    webService := web_service
    gameService := game_service
    webTg := web_tg
    gameTg := game_tg
    httpListener := http_listener
    wsParam := ws_param
    outputs :=
      [ { id := "AlbDnsName", value := .albDnsTok },
        { id := "WebServiceUrl", value := .cat (.lit "http://") .albDnsTok },
        { id := "WebSocketUrl", value := wsEndpoint },
        { id := "DynamoDbTableName", value := .tableNameTok },
        { id := "WsEndpointParamPath", value := .lit "/wordbash/ws_endpoint" } ] }

/-- A stack created by app.py, tagged by kind. -/
inductive StackDecl where
  | networkSt (name : String) (s : NetworkStack)
  | dataSt (name : String) (s : DataStack)
  | computeSt (name : String) (s : ComputeStack)
deriving DecidableEq, Repr

/-- Whether a stack declaration is the network stack. -/
def StackDecl.isNetworkSt : StackDecl → Bool
  | .networkSt _ _ => true
  | _ => false

/-- Whether a stack declaration is the data stack. -/
def StackDecl.isDataSt : StackDecl → Bool
  | .dataSt _ _ => true
  | _ => false

/-- Whether a stack declaration is the compute stack. -/
def StackDecl.isComputeSt : StackDecl → Bool
  | .computeSt _ _ => true
  | _ => false

/-- The synthesised app: the stacks created on it, plus explicit
dependency edges (dependent stack name, depended-on stack name). -/
structure CdkApp where
  stackList : List StackDecl
  dependencies : List (String × String)
deriving DecidableEq, Repr

/-- app.py: one network stack, one data stack, one compute stack, with
the compute stack declared dependent on both others through
add_dependency. -/
def app (ctx : Context) : CdkApp :=
  { stackList :=
      [ .networkSt "WordBashNetworkStack" networkStack,
        .dataSt "WordBashDataStack" (dataStack ctx),
        .computeSt "WordBashComputeStack" (computeStack ctx) ]
    dependencies :=
      [ ("WordBashComputeStack", "WordBashNetworkStack"),
        ("WordBashComputeStack", "WordBashDataStack") ] }

/-- An empty context: every key absent. -/
def ctxEmpty : Context :=
  { account := none, region := none, keep_data := none,
    web_image_path := none, game_image_path := none, api_base_url := none }

/-- A context whose keep_data key holds a truthy value. -/
def ctxKeep : Context :=
  { ctxEmpty with keep_data := some (.vBool true) }

/-- A context overriding only the web image path (variant A). -/
def ctxWebA : Context :=
  { ctxEmpty with web_image_path := some (.vStr "./images/web-a") }

/-- A context overriding only the web image path (variant B). -/
def ctxWebB : Context :=
  { ctxEmpty with web_image_path := some (.vStr "./images/web-b") }

/-- C1: the table's removal policy is RETAIN exactly when the keep_data
context value is present and truthy, is DESTROY otherwise, and depends on
no other context input. -/
theorem keep_data_controls_removal_policy (ctx : Context) :
    ((dataStack ctx).table.removalPolicy = RemovalPolicy.retain ↔
      ∃ v, ctx.keep_data = some v ∧ v.truthy = true) ∧
    ((dataStack ctx).table.removalPolicy = RemovalPolicy.retain ∨
      (dataStack ctx).table.removalPolicy = RemovalPolicy.destroy) ∧
    (∀ ctx2 : Context, ctx2.keep_data = ctx.keep_data →
      (dataStack ctx2).table.removalPolicy = (dataStack ctx).table.removalPolicy) := by
  refine ⟨?_, ?_, ?_⟩
  · cases hk : ctx.keep_data with
    | none => simp [dataStack, ctxTruthy, hk]
    | some v =>
        by_cases ht : v.truthy <;> simp [dataStack, ctxTruthy, hk, ht]
  · by_cases h : ctxTruthy ctx.keep_data <;> simp [dataStack, h]
  · intro ctx2 h
    simp [dataStack, h]

/-- Witness for C1: with keep_data set to True the policy is RETAIN, and
with keep_data absent it is DESTROY. -/
theorem keep_data_controls_removal_policy_witness :
    (dataStack ctxKeep).table.removalPolicy = RemovalPolicy.retain ∧
    (dataStack ctxEmpty).table.removalPolicy = RemovalPolicy.destroy := by
  constructor
  · exact (keep_data_controls_removal_policy ctxKeep).1.mpr ⟨.vBool true, rfl, rfl⟩
  · rcases (keep_data_controls_removal_policy ctxEmpty).2.1 with h | h
    · exact absurd ((keep_data_controls_removal_policy ctxEmpty).1.mp h)
        (by rintro ⟨v, hv, -⟩; simp [ctxEmpty] at hv)
    · exact h

/-- C2: the HTTP listener carries exactly one rule, matching /ws/* at
explicit priority 100 and forwarding to the game target group; the
default action forwards to the web target group, and 100 is numerically
below the default action's implicit lowest priority. -/
theorem websocket_rule_precedes_default (ctx : Context) :
    (computeStack ctx).httpListener.rules =
      [ { id := "WebSocketRule"
          priority := 100
          pathPatterns := ["/ws/*"]
          action := .forward [(computeStack ctx).gameTg] } ] ∧
    (computeStack ctx).httpListener.defaultAction =
      .forward [(computeStack ctx).webTg] ∧
    100 < defaultActionImplicitPriority :=
  ⟨rfl, rfl, by decide⟩

/-- C3: the game target group carries exactly the three literal attribute
overrides (deregistration delay 30, lb_cookie stickiness enabled) and the
web target group carries none. -/
theorem game_target_group_attribute_overrides (ctx : Context) :
    (computeStack ctx).gameTg.attributeOverrides =
      [ ("deregistration_delay.timeout_seconds", "30"),
        ("stickiness.enabled", "true"),
        ("stickiness.type", "lb_cookie") ] ∧
    (computeStack ctx).webTg.attributeOverrides = [] :=
  ⟨rfl, rfl⟩

/-- C4: for every context, both services scale between 1 and 4 replicas
on a 50 percent CPU-utilization target. -/
theorem scaling_bounds_fixed (ctx : Context) :
    (computeStack ctx).webService.scaling =
      { policyId := "WebCpuScaling", minCapacity := 1, maxCapacity := 4,
        targetUtilizationPercent := 50 } ∧
    (computeStack ctx).gameService.scaling =
      { policyId := "GameCpuScaling", minCapacity := 1, maxCapacity := 4,
        targetUtilizationPercent := 50 } :=
  ⟨rfl, rfl⟩

/-- C5: the web service task role receives exactly the ssm:GetParameter
statement on the published /wordbash/ws_endpoint parameter, and the game
service task role receives no added policy statement. -/
theorem ssm_grant_web_only (ctx : Context) :
    (computeStack ctx).webService.taskDefinition.taskRole.statements =
      [ssmGetParameterStatement] ∧
    ssmGetParameterStatement.actions = ["ssm:GetParameter"] ∧
    (computeStack ctx).wsParam.parameterName = "/wordbash/ws_endpoint" ∧
    (computeStack ctx).gameService.taskDefinition.taskRole.statements = [] :=
  ⟨rfl, rfl, rfl, rfl⟩

/-- C6: two contexts that agree on everything except one image's
build-context path produce identical declarations for the other service
group (its service, hence task definition, container, environment and
scaling, and its target group). -/
theorem image_path_frame_effect (ctx1 ctx2 : Context) :
    ((ctx1.account = ctx2.account ∧ ctx1.region = ctx2.region ∧
      ctx1.keep_data = ctx2.keep_data ∧
      ctx1.game_image_path = ctx2.game_image_path ∧
      ctx1.api_base_url = ctx2.api_base_url) →
      (computeStack ctx1).gameService = (computeStack ctx2).gameService ∧
      (computeStack ctx1).gameTg = (computeStack ctx2).gameTg) ∧
    ((ctx1.account = ctx2.account ∧ ctx1.region = ctx2.region ∧
      ctx1.keep_data = ctx2.keep_data ∧
      ctx1.web_image_path = ctx2.web_image_path ∧
      ctx1.api_base_url = ctx2.api_base_url) →
      (computeStack ctx1).webService = (computeStack ctx2).webService ∧
      (computeStack ctx1).webTg = (computeStack ctx2).webTg) := by
  constructor
  · rintro ⟨-, -, -, hg, -⟩
    constructor <;> · simp only [computeStack]; rw [hg]
  · rintro ⟨-, -, -, hw, hapi⟩
    constructor <;> · simp only [computeStack]; rw [hw, hapi]

/-- Witness for C6: two contexts differing only in the web image path
yield the same game service and game target group. -/
theorem image_path_frame_effect_witness :
    (computeStack ctxWebA).gameService = (computeStack ctxWebB).gameService ∧
    (computeStack ctxWebA).gameTg = (computeStack ctxWebB).gameTg :=
  (image_path_frame_effect ctxWebA ctxWebB).1 ⟨rfl, rfl, rfl, rfl, rfl⟩

/-- C7: every run of the app creates exactly one network stack, one data
stack and one compute stack, and declares the compute stack dependent on
both the network stack and the data stack. -/
theorem app_stack_inventory (ctx : Context) :
    (app ctx).stackList.countP StackDecl.isNetworkSt = 1 ∧
    (app ctx).stackList.countP StackDecl.isDataSt = 1 ∧
    (app ctx).stackList.countP StackDecl.isComputeSt = 1 ∧
    (app ctx).stackList.length = 3 ∧
    (app ctx).dependencies =
      [ ("WordBashComputeStack", "WordBashNetworkStack"),
        ("WordBashComputeStack", "WordBashDataStack") ] :=
  ⟨rfl, rfl, rfl, rfl, rfl⟩

/-- C8: the network declaration spans two availability zones with one
public and one private /24 subnet in each, creates exactly one NAT
gateway, and routes every private subnet's egress through that single
gateway. -/
theorem network_subnet_topology :
    networkStack.vpc.maxAzs = 2 ∧
    networkStack.vpc.subnets =
      [ { az := 0, name := "Public", subnetType := .publicSubnet, cidrMask := 24 },
        { az := 0, name := "Private", subnetType := .privateWithEgress, cidrMask := 24 },
        { az := 1, name := "Public", subnetType := .publicSubnet, cidrMask := 24 },
        { az := 1, name := "Private", subnetType := .privateWithEgress, cidrMask := 24 } ] ∧
    networkStack.vpc.natGatewayIds = [0] ∧
    (networkStack.vpc.subnets.filter
        (fun s => decide (s.subnetType = .privateWithEgress))).map
      (fun s => s.egressGateway networkStack.vpc) = [some 0, some 0] :=
  ⟨rfl, by decide, rfl, by decide⟩

/-- C9: each image's build directory is the context path value when it is
present and truthy, and the literal default ../web respectively ../game
when the key is absent or its value falsy. -/
theorem image_path_defaulting (ctx : Context) :
    ((computeStack ctx).webImage.directory =
      match ctx.web_image_path with
      | none => CtxValue.vStr "../web"
      | some v => if v.truthy then v else CtxValue.vStr "../web") ∧
    ((computeStack ctx).gameImage.directory =
      match ctx.game_image_path with
      | none => CtxValue.vStr "../game"
      | some v => if v.truthy then v else CtxValue.vStr "../game") := by
  constructor
  · cases h : ctx.web_image_path <;> simp [computeStack, pyOr, h]
  · cases h : ctx.game_image_path <;> simp [computeStack, pyOr, h]

/-- C10: the shared service security group admits inbound traffic only on
TCP 8080 and only from the load balancer's security group, and both
services use exactly that security group, so neither is declared directly
internet-reachable. -/
theorem service_security_group_locked_down (ctx : Context) :
    (computeStack ctx).serviceSg.ingress =
      [ { peer := .sgRef (computeStack ctx).albSg.id, tcpPort := 8080 } ] ∧
    (computeStack ctx).webService.securityGroups = [(computeStack ctx).serviceSg] ∧
    (computeStack ctx).gameService.securityGroups = [(computeStack ctx).serviceSg] ∧
    (computeStack ctx).alb.securityGroup = (computeStack ctx).albSg :=
  ⟨rfl, rfl, rfl, rfl⟩
